import Mathlib

/-!
Verification development for the blkcapt snapshot-management system
(crates libblkcapt, blkcaptwrk, blkcaptctl).

The Rust sources are shallowly embedded: UUIDs become naturals, datetimes
become naturals (seconds since an arbitrary epoch), filesystem paths are
represented by the final file-name component (the only part the embedded
functions inspect), and external effects (filesystem enumeration, the
chrono datetime parser, the humantime and cron parsers, actor spawning,
the HTTPS client) become explicit parameters or inputs.  Fallible Rust
functions returning anyhow Result are embedded as Except String; a Rust
panic branch is embedded as an explicit error/none value.
-/

deriving instance DecidableEq for Except

/-- UUIDs (uuid::Uuid) are modelled as natural numbers. -/
abbrev Uuid := Nat

/-- A btrfs subvolume record as produced by the filesystem enumeration
(sys::btrfs::Subvolume).  The path is modelled by its final file-name
component, which is the only part of the path the embedded enumeration
functions inspect (via file_name, file_stem and extension). -/
structure Subvolume where
  uuid : Uuid
  parent_uuid : Option Uuid
  received_uuid : Option Uuid
  file_name : String
deriving DecidableEq

/-- ObservableEvent from libblkcapt::model::entities. -/
inductive ObservableEvent where
  | datasetSnapshot
  | datasetPrune
  | containerPrune
  | datasetSync
deriving DecidableEq

/-- ObservableEventStage from libblkcapt::core (src/libblkcapt/src/core/mod.rs). -/
inductive ObservableEventStage where
  | starting
  | succeeded
  | failed (msg : String)
deriving DecidableEq

/-- ObservableEventMessage from blkcaptwrk::actors::observation. -/
structure ObservableEventMessage where
  source : Uuid
  event : ObservableEvent
  stage : ObservableEventStage
deriving DecidableEq

/-- observable_func from src/blkcaptwrk/src/actors/observation.rs.  The wrapped
computation func is a suspended computation producing an Except value; the
broker publications are returned as an explicit list of published messages, in
publication order (the first message is published before func runs).  The
debug_fmt parameter stands for the Rust Debug formatting applied to the error
in the Failed stage. -/
def observable_func {T E : Type} (debug_fmt : E → String) (source : Uuid)
    (event : ObservableEvent) (func : Unit → Except E T) :
    List ObservableEventMessage × Except E T :=
  let result := func ()
  let final_stage :=
    match result with
    | .ok _ => ObservableEventStage.succeeded
    | .error e => ObservableEventStage.failed (debug_fmt e)
  ([⟨source, event, .starting⟩, ⟨source, event, final_stage⟩], result)

/-- The file-name characters after the last dot, when Rust
Path::extension would report an extension: none when the name has no dot,
or when the only dot is the leading character (a dotfile). -/
def path_extension (name : String) : Option String :=
  let rev := name.data.reverse
  let after_last_dot := rev.takeWhile (fun c => c != '.')
  if after_last_dot.length = rev.length then none
  else
    let before := rev.drop (after_last_dot.length + 1)
    if before.isEmpty then none
    else some after_last_dot.reverse.asString

/-- The file-name characters before the last dot, per Rust Path::file_stem:
the whole name when there is no dot or when the only dot is the leading
character, otherwise the portion before the final dot. -/
def path_file_stem (name : String) : String :=
  let rev := name.data.reverse
  let after_last_dot := rev.takeWhile (fun c => c != '.')
  if after_last_dot.length = rev.length then name
  else
    let before := rev.drop (after_last_dot.length + 1)
    if before.isEmpty then name
    else before.reverse.asString

/-- BtrfsDatasetSnapshot from src/libblkcapt/src/core/mod.rs: a subvolume
paired with the datetime parsed from its file name.  The back reference to
the owning dataset is elided (it is only used to route filesystem calls). -/
structure BtrfsDatasetSnapshot where
  subvolume : Subvolume
  datetime : Nat
deriving DecidableEq

/-- Snapshot UUID accessor (BtrfsSnapshot::uuid for BtrfsDatasetSnapshot). -/
def BtrfsDatasetSnapshot.uuid (s : BtrfsDatasetSnapshot) : Uuid :=
  s.subvolume.uuid

/-- Sorting by the datetime key, modelling
snapshots.sort_unstable_by_key(datetime).  Rust's unstable sort guarantees
only that the result is ordered by the key; it is embedded as a stable
insertion sort, which agrees with the observed behaviour of Rust's
slice sort on the short slices used in this development. -/
def sort_by_datetime (l : List BtrfsDatasetSnapshot) : List BtrfsDatasetSnapshot :=
  List.insertionSort (fun a b => a.datetime ≤ b.datetime) l

/-- BtrfsDataset::snapshots from src/libblkcapt/src/core/mod.rs.  The
subvols parameter is the result of list_subvolumes on the snapshot
container directory; parse stands for chrono
NaiveDateTime::parse_from_str with format "%FT%H-%M-%SZ" applied to the
file name.  Entries whose names fail to parse are dropped; the result is
sorted by datetime. -/
def dataset_snapshots (subvols : List Subvolume) (parse : String → Option Nat) :
    List BtrfsDatasetSnapshot :=
  sort_by_datetime
    (subvols.filterMap (fun s => (parse s.file_name).map (fun d => ⟨s, d⟩)))

/-- BtrfsContainerSnapshot from src/libblkcapt/src/core/mod.rs, analogous to
BtrfsDatasetSnapshot (container back reference elided). -/
structure BtrfsContainerSnapshot where
  subvolume : Subvolume
  datetime : Nat
deriving DecidableEq

/-- Snapshot UUID accessor (BtrfsSnapshot::uuid for BtrfsContainerSnapshot). -/
def BtrfsContainerSnapshot.uuid (s : BtrfsContainerSnapshot) : Uuid :=
  s.subvolume.uuid

/-- BtrfsContainerSnapshot::received_uuid.  The source unwraps the optional
received UUID with expect("container snapshots are always received"); the
none value of this embedding marks exactly the input on which that panic
branch is reached. -/
def BtrfsContainerSnapshot.received_uuid (s : BtrfsContainerSnapshot) : Option Uuid :=
  s.subvolume.received_uuid

/-- Sorting of container snapshots by the datetime key (same modelling of
sort_unstable_by_key as sort_by_datetime). -/
def sort_container_by_datetime (l : List BtrfsContainerSnapshot) : List BtrfsContainerSnapshot :=
  List.insertionSort (fun a b => a.datetime ≤ b.datetime) l

/-- BtrfsContainer::new_child_snapshot from src/libblkcapt/src/core/mod.rs:
parses the file stem as a datetime (chrono parse passed as parameter). -/
def new_child_snapshot (parse : String → Option Nat) (s : Subvolume) :
    Option BtrfsContainerSnapshot :=
  (parse (path_file_stem s.file_name)).map (fun d => ⟨s, d⟩)

/-- BtrfsContainer::snapshots from src/libblkcapt/src/core/mod.rs: keeps the
subvolumes whose extension is bcrcv, builds child snapshots (dropping
entries whose stem fails to parse), and sorts by datetime.  The subvols
parameter is the result of list_subvolumes on the per-dataset container
directory. -/
def container_snapshots (subvols : List Subvolume) (parse : String → Option Nat) :
    List BtrfsContainerSnapshot :=
  sort_container_by_datetime
    ((subvols.filter (fun s => path_extension s.file_name == some "bcrcv")).filterMap
      (new_child_snapshot parse))

/-- One entry of DatasetActor::active_sends_holds from
src/blkcaptwrk/src/actors/dataset.rs, a tuple
(BoxBcWeakAddr, Uuid, Option of Uuid).  The weak actor address is modelled
by its actor_id, the only part of it the dataset actor inspects. -/
structure HoldRecord where
  actor_id : Nat
  send_uuid : Uuid
  parent_uuid : Option Uuid
deriving DecidableEq

/-- A cron Schedule is modelled by its ascending list of fire times;
Schedule::after(t).next() becomes the first listed time strictly after t. -/
abbrev CronSchedule := List Nat

/-- The mutable state of DatasetActor (src/blkcaptwrk/src/actors/dataset.rs).
The pool address and the dataset handle are elided except for the dataset
model id (used as the observation source). -/
structure DatasetActorState where
  dataset_id : Uuid
  snapshots : List BtrfsDatasetSnapshot
  snapshot_schedule : Option CronSchedule
  prune_schedule : Option CronSchedule
  active_sends_holds : List HoldRecord
deriving DecidableEq

/-- schedule_next_delay from src/blkcaptwrk/src/actorbase.rs: the delay to
the next fire time of the schedule strictly after the given instant, none
when the schedule is exhausted. -/
def schedule_next_delay (after : Nat) (schedule : CronSchedule) : Option Nat :=
  (schedule.find? (fun t => after < t)).map (fun next => next - after)

/-- schedule_next_message from src/blkcaptwrk/src/actorbase.rs: with a
configured schedule it optionally yields the delay of the timer message it
posts; with none it panics, embedded as the error case. -/
def schedule_next_message (schedule : Option CronSchedule) (now : Nat) :
    Except String (Option Nat) :=
  match schedule with
  | some s => .ok (schedule_next_delay now s)
  | none => .error "schedule_next_message called when no schedule was configured"

/-- The SnapshotMessage handler of DatasetActor
(src/blkcaptwrk/src/actors/dataset.rs, BcHandler for SnapshotMessage).
create_result is the outcome of BtrfsDataset::create_local_snapshot (a
filesystem effect).  Returns the new state, the observation messages
published by the observable_func envelope, and the scheduling action of
the unconditional schedule_next_snapshot call. -/
def snapshot_message_handler (st : DatasetActorState) (now : Nat)
    (create_result : Except String BtrfsDatasetSnapshot) :
    DatasetActorState × List ObservableEventMessage × Except String (Option Nat) :=
  let published := observable_func (fun e => e) st.dataset_id .datasetSnapshot
    (fun _ => create_result)
  let st1 :=
    match published.2 with
    | .ok snapshot => { st with snapshots := st.snapshots ++ [snapshot] }
    | .error _ => st
  (st1, published.1, schedule_next_message st.snapshot_schedule now)

/-- The held-UUID list the PruneMessage handler of DatasetActor builds from
active_sends_holds:
active_sends_holds.iter().flat_map(once(a.1).chain(a.2.into_iter())). -/
def active_hold_uuids (holds : List HoldRecord) : List Uuid :=
  holds.flatMap (fun a => a.send_uuid :: a.parent_uuid.toList)

/-- One bucket of a retention ruleset: spec section 4.2, an
(interval duration, keep count) pair. -/
structure RetentionBucket where
  interval : Nat
  keep_count : Nat
deriving DecidableEq

/-- Modelled from the spec: the retention ruleset of section 3 and 4.2 (the
libblkcapt retention module is not under src/): an ordered list of buckets
plus a minimum newest-count.  The evaluation schedule is elided (it only
drives tick scheduling). -/
structure RetentionRuleset where
  buckets : List RetentionBucket
  newest_count : Nat
deriving DecidableEq

/-- Modelled from the spec (section 4.2): the newest snapshot within the
half-open time slot lo <= datetime < hi, if any. -/
def slot_winner (snaps : List BtrfsDatasetSnapshot) (lo hi : Nat) :
    Option BtrfsDatasetSnapshot :=
  (snaps.filter (fun s => decide (lo ≤ s.datetime) && decide (s.datetime < hi))).foldl
    (fun acc s =>
      match acc with
      | none => some s
      | some b => if b.datetime < s.datetime then some s else some b)
    none

/-- Modelled from the spec (section 4.2): the at-most-one retained snapshot
per slot of a bucket, whose window of keep_count slots of length interval
ends at the evaluation instant now (Nat subtraction truncates the oldest
slot at time zero). -/
def bucket_keeps (snaps : List BtrfsDatasetSnapshot) (now : Nat)
    (b : RetentionBucket) : List BtrfsDatasetSnapshot :=
  (List.range b.keep_count).filterMap
    (fun i => slot_winner snaps (now - (i + 1) * b.interval) (now - i * b.interval))

/-- Modelled from the spec (section 4.2): the minimum newest-count
unconditionally retains the latest n snapshots. -/
def newest_keeps (snaps : List BtrfsDatasetSnapshot) (n : Nat) :
    List BtrfsDatasetSnapshot :=
  (sort_by_datetime snaps).reverse.take n

/-- Modelled from the spec (section 4.2): a snapshot is retained by the rule
itself when some bucket slot or the newest-count window selects it. -/
def retention_keep_core (snaps : List BtrfsDatasetSnapshot) (now : Nat)
    (rule : RetentionRuleset) (s : BtrfsDatasetSnapshot) : Bool :=
  rule.buckets.any (fun b => (bucket_keeps snaps now b).contains s)
    || (newest_keeps snaps rule.newest_count).contains s

/-- Modelled from the spec: the pure retention engine of section 4.2,
prune(snapshots, held_uuids, rule) yielding the (keep, delete) pair; held
snapshots are removed from delete and added to keep regardless of bucket
assignment.  This models the prune_btrfs_snapshots routine of blkcaptwrk
(crate::snapshots), whose source is not under src/. -/
def prune_spec (snapshots : List BtrfsDatasetSnapshot) (held_uuids : List Uuid)
    (rule : RetentionRuleset) (now : Nat) :
    List BtrfsDatasetSnapshot × List BtrfsDatasetSnapshot :=
  let sorted := sort_by_datetime snapshots
  (sorted.filter (fun s =>
      retention_keep_core sorted now rule s || held_uuids.contains s.uuid),
   sorted.filter (fun s =>
      !retention_keep_core sorted now rule s && !held_uuids.contains s.uuid))

/-- The delete set computed by the PruneMessage handler of DatasetActor
(src/blkcaptwrk/src/actors/dataset.rs, BcHandler for PruneMessage): the
retention engine applied to the actor snapshot list with the held UUIDs
drawn from active_sends_holds. -/
def prune_message_deletes (st : DatasetActorState) (rule : RetentionRuleset)
    (now : Nat) : List BtrfsDatasetSnapshot :=
  (prune_spec st.snapshots (active_hold_uuids st.active_sends_holds) rule now).2

/-- The outcome of the GetSnapshotSenderMessage handler: the handler return
value, the actor state after the handler, and the SenderReadyMessage payload
sent on the ready sink (none when no reply was sent).  The payload of
SenderReadyMessage, a Result of a started LocalSenderActor address, is
modelled by an Except of the actor id. -/
structure SenderRequestOutcome where
  result : Except String Unit
  state : DatasetActorState
  ready_sent : Option (Except String Nat)
deriving DecidableEq

/-- The GetSnapshotSenderMessage handler of DatasetActor
(src/blkcaptwrk/src/actors/dataset.rs, BcHandler for
GetSnapshotSenderMessage).  The send and optional parent snapshot handles
are resolved by UUID against the actor snapshot list, failing with the
source error strings on a miss; start_result is the outcome of starting
the LocalSenderActor (an actor-runtime effect, carrying the new actor id
on success); on a started sender a hold record is pushed, and the
SenderReadyMessage carrying start_result is sent on the ready sink.  The
byte-source opened by send_snapshot.send(parent) is elided (opaque I/O held
by the spawned sender). -/
def get_snapshot_sender_handler (st : DatasetActorState) (send_handle_uuid : Uuid)
    (parent_handle_uuid : Option Uuid) (start_result : Except String Nat) :
    SenderRequestOutcome :=
  match st.snapshots.find? (fun s => s.uuid == send_handle_uuid) with
  | none => ⟨.error "Snapshot not found.", st, none⟩
  | some send_snapshot =>
    let parent_resolved : Except String (Option BtrfsDatasetSnapshot) :=
      match parent_handle_uuid with
      | some handle_uuid =>
        match st.snapshots.find? (fun s => s.uuid == handle_uuid) with
        | none => .error "Parent not found"
        | some p => .ok (some p)
      | none => .ok none
    match parent_resolved with
    | .error e => ⟨.error e, st, none⟩
    | .ok parent_snapshot =>
      let st1 :=
        match start_result with
        | .ok addr_id =>
          { st with active_sends_holds := st.active_sends_holds ++
              [⟨addr_id, send_snapshot.uuid, parent_snapshot.map (fun p => p.uuid)⟩] }
        | .error _ => st
      ⟨.ok (), st1, some start_result⟩

/-- The LocalSenderFinishedMessage handler of DatasetActor
(src/blkcaptwrk/src/actors/dataset.rs, BcHandler for
LocalSenderFinishedMessage):
active_sends_holds.retain(x.actor_id() != msg.0). -/
def local_sender_finished_handler (st : DatasetActorState)
    (finished_actor_id : Nat) : DatasetActorState :=
  { st with active_sends_holds :=
      st.active_sends_holds.filter (fun r => r.actor_id != finished_actor_id) }

/-- Fixed-width lowercase hexadecimal rendering of a natural number, most
significant digit first. -/
def to_hex_fixed (n width : Nat) : String :=
  ((List.range width).map
    (fun i => Nat.digitChar (n / 16 ^ (width - 1 - i) % 16))).asString

/-- The lowercase hyphenated rendering of a 128-bit UUID
(uuid::Uuid::to_hyphenated), in 8-4-4-4-12 hex-digit groups. -/
def uuid_to_hyphenated (u : Uuid) : String :=
  let cs := (((List.range 32).map
    (fun i => Nat.digitChar (u % 2 ^ 128 / 16 ^ (31 - i) % 16))))
  (cs.take 8).asString ++ "-" ++ ((cs.drop 8).take 4).asString ++ "-"
    ++ ((cs.drop 12).take 4).asString ++ "-" ++ ((cs.drop 16).take 4).asString
    ++ "-" ++ (cs.drop 20).asString

/-- ObservationEmitter from src/libblkcapt/src/core/mod.rs; the HTTPS
client is elided, leaving the configured base URL. -/
structure ObservationEmitter where
  url : String
deriving DecidableEq

/-- The Default instance of ObservationEmitter. -/
def ObservationEmitter.default : ObservationEmitter :=
  { url := "https://hc-ping.com/" }

/-- The per-stage URI suffix chosen by ObservationEmitter::emit. -/
def emit_suffix (stage : ObservableEventStage) : String :=
  match stage with
  | .starting => "/start"
  | .succeeded => ""
  | .failed _ => "/fail"

/-- The URI string built by ObservationEmitter::emit
(src/libblkcapt/src/core/mod.rs): base URL, hyphenated healthcheck UUID,
then the stage suffix.  The HTTP GET issued on this URI is an elided
network effect. -/
def ObservationEmitter.emit_uri (e : ObservationEmitter) (healthcheck_id : Uuid)
    (stage : ObservableEventStage) : String :=
  (e.url ++ uuid_to_hyphenated healthcheck_id) ++ emit_suffix stage

/-- The advisory context message attached by the ScheduleArg FromStr
implementation (src/blkcaptctl/src/ui.rs) when a parsed duration cannot be
converted into a schedule. -/
def schedule_advisory_message : String :=
  "The specified frequency can\x27t be converted into a schedule. For more advanced schedule creation use a cron expression. See --help for more details."

/-- The FromStr implementation of ScheduleArg (src/blkcaptctl/src/ui.rs).
The branch condition is the source condition s.contains(a space character),
written over the underlying character list.  The three external parsers are
parameters: cron_parse stands for the ScheduleModel FromStr cron parse,
humantime_parse for humantime::Duration parsing, and duration_try_into for
the TryInto conversion of a duration into a ScheduleModel (none when the
conversion fails, in which case the advisory context message becomes the
error). -/
def schedule_arg_from_str {α : Type} (cron_parse : String → Except String α)
    (humantime_parse : String → Except String Nat)
    (duration_try_into : Nat → Option α) (s : String) : Except String α :=
  if s.data.any (fun c => c == ' ') then
    cron_parse s
  else
    match humantime_parse s with
    | .error e => .error e
    | .ok d =>
      match duration_try_into d with
      | some m => .ok m
      | none => .error schedule_advisory_message

/-- BtrfsPoolEntity from the model module (src/src/model/mod.rs uses the
fields name, uuid and mountpoint_path; the embedded datasets, containers
and device UUIDs are elided as attach_pool never inspects them).  The
mountpoint path is modelled as a string. -/
structure BtrfsPoolEntity where
  name : String
  uuid : Uuid
  mountpoint_path : String
deriving DecidableEq

/-- Entities from src/src/model/mod.rs (the snapshot_syncs field is elided;
attach_pool never touches it). -/
structure Entities where
  btrfs_pools : List BtrfsPoolEntity
deriving DecidableEq

/-- Entities::pool: first pool with the given name. -/
def Entities.pool (e : Entities) (name : String) : Option BtrfsPoolEntity :=
  e.btrfs_pools.find? (fun p => p.name == name)

/-- Entities::pool_by_uuid: first pool with the given filesystem UUID. -/
def Entities.pool_by_uuid (e : Entities) (uuid : Uuid) : Option BtrfsPoolEntity :=
  e.btrfs_pools.find? (fun p => p.uuid == uuid)

/-- Entities::pool_by_mountpoint: first pool with the given mountpoint. -/
def Entities.pool_by_mountpoint (e : Entities) (path : String) : Option BtrfsPoolEntity :=
  e.btrfs_pools.find? (fun p => p.mountpoint_path == path)

/-- Entities::attach_pool from src/src/model/mod.rs.  The mutation of the
receiver is made explicit: the result pairs the returned Result with the
entity set after the call.  Error strings follow the source messages. -/
def Entities.attach_pool (e : Entities) (pool : BtrfsPoolEntity) :
    Except String Unit × Entities :=
  match e.pool pool.name with
  | some p => ⟨.error ("Pool name \x27" ++ p.name ++ "\x27 already exists."), e⟩
  | none =>
    match e.pool_by_uuid pool.uuid with
    | some p => ⟨.error ("uuid already used by pool " ++ p.name ++ "."), e⟩
    | none =>
      match e.pool_by_mountpoint pool.mountpoint_path with
      | some p => ⟨.error ("mountpoint already used by pool " ++ p.name ++ "."), e⟩
      | none => ⟨.ok (), { e with btrfs_pools := e.btrfs_pools ++ [pool] }⟩

/-- Pairwise distinctness of pool names, filesystem UUIDs and mountpoints
within an entity set. -/
def pools_distinct (l : List BtrfsPoolEntity) : Prop :=
  l.Pairwise (fun a b =>
    a.name ≠ b.name ∧ a.uuid ≠ b.uuid ∧ a.mountpoint_path ≠ b.mountpoint_path)

instance pools_distinct_decidable (l : List BtrfsPoolEntity) :
    Decidable (pools_distinct l) := by
  unfold pools_distinct
  infer_instance

/-- Concrete stand-in for the chrono datetime parse used in concrete
evaluations: chrono numeric format specifiers accept unpadded digits, so
the two distinct file names below parse to the same instant. -/
def demo_datetime_parse : String → Option Nat := fun name =>
  if name = "2024-01-01T00-00-00Z" then some 100
  else if name = "2024-01-1T00-00-00Z" then some 100
  else none

/-- A snapshot subvolume with the zero-padded name. -/
def demo_subvol_a : Subvolume :=
  ⟨5, some 90, none, "2024-01-01T00-00-00Z"⟩

/-- A snapshot subvolume with an unpadded name parsing to the same
datetime as demo_subvol_a but carrying a smaller UUID. -/
def demo_subvol_b : Subvolume :=
  ⟨3, some 90, none, "2024-01-1T00-00-00Z"⟩

/-- A subvolume whose file name carries the bcrcv suffix but whose
received UUID is null (for example a subvolume created by hand under the
container directory rather than by btrfs receive). -/
def demo_recv_subvol : Subvolume :=
  ⟨7, none, none, "2024-01-01T00-00-00Z.bcrcv"⟩

/-- A received subvolume with the bcrcv suffix and a non-null received
UUID, as btrfs receive produces. -/
def demo_recv_good_subvol : Subvolume :=
  ⟨8, none, some 9, "2024-01-01T00-00-00Z.bcrcv"⟩

/-- Concrete stand-in for the cron-expression parse of ScheduleModel
FromStr at the inputs used in concrete evaluations (none of which is a
valid six-field cron expression). -/
def demo_cron_parse : String → Except String Nat :=
  fun _ => .error "invalid cron expression"

/-- Concrete stand-in for humantime duration parsing at the inputs used in
concrete evaluations (a tab is not valid inside a humantime duration). -/
def demo_humantime_parse : String → Except String Nat :=
  fun _ => .error "invalid character in duration"

/-- Concrete stand-in for humantime duration parsing that accepts 15m. -/
def demo_humantime_parse15 : String → Except String Nat := fun s =>
  if s = "15m" then .ok 900 else .error "invalid character in duration"

/-- Concrete stand-in for the TryInto conversion of a duration into a
ScheduleModel that always fails (a duration inexpressible as a periodic
cron). -/
def demo_duration_try_into : Nat → Option Nat := fun _ => none

/-- Dataset snapshot fixture: uuid 1 at time 10. -/
def demo_snapshot_1 : BtrfsDatasetSnapshot := ⟨⟨1, none, none, "s1"⟩, 10⟩

/-- Dataset snapshot fixture: uuid 2 at time 20. -/
def demo_snapshot_2 : BtrfsDatasetSnapshot := ⟨⟨2, none, none, "s2"⟩, 20⟩

/-- Dataset snapshot fixture: uuid 3 at time 30. -/
def demo_snapshot_3 : BtrfsDatasetSnapshot := ⟨⟨3, none, none, "s3"⟩, 30⟩

/-- Hold record fixture: actor 5 holding send uuid 3 with parent uuid 2. -/
def demo_hold_record : HoldRecord := ⟨5, 3, some 2⟩

/-- Dataset actor state fixture for the prune handler: three snapshots and
one active hold. -/
def demo_prune_state : DatasetActorState :=
  ⟨42, [demo_snapshot_1, demo_snapshot_2, demo_snapshot_3], none, some [60],
    [demo_hold_record]⟩

/-- Retention ruleset fixture: no buckets, newest-count one. -/
def demo_rule : RetentionRuleset := ⟨[], 1⟩

/-- Dataset actor state fixture for the sender-request handler: two
snapshots, no active holds. -/
def demo_sender_state : DatasetActorState :=
  ⟨42, [demo_snapshot_1, demo_snapshot_2], some [60], none, []⟩

/-- Hold record fixture: actor 1 holding send uuid 11. -/
def demo_hold_a : HoldRecord := ⟨1, 11, none⟩

/-- Hold record fixture: actor 2 holding send uuid 12 with parent 13. -/
def demo_hold_b : HoldRecord := ⟨2, 12, some 13⟩

/-- Dataset actor state fixture for the sender-finished handler: two
active holds owned by different actors. -/
def demo_hold_state : DatasetActorState :=
  ⟨42, [demo_snapshot_1], some [60], some [90], [demo_hold_a, demo_hold_b]⟩

/-- Pool entity fixture. -/
def demo_pool_1 : BtrfsPoolEntity := ⟨"tank", 1, "/mnt/tank"⟩

/-- Pool entity fixture distinct from demo_pool_1 in all three keys. -/
def demo_pool_2 : BtrfsPoolEntity := ⟨"backup", 2, "/mnt/backup"⟩

instance dataset_snapshot_le_total :
    IsTotal BtrfsDatasetSnapshot (fun a b => a.datetime ≤ b.datetime) :=
  ⟨fun a b => Nat.le_total a.datetime b.datetime⟩

instance dataset_snapshot_le_trans :
    IsTrans BtrfsDatasetSnapshot (fun a b => a.datetime ≤ b.datetime) :=
  ⟨fun _ _ _ h1 h2 => Nat.le_trans h1 h2⟩

/-- C3: observable_func publishes a Starting-stage message before running
the wrapped computation, then publishes Succeeded if it returned Ok or
Failed carrying the stringified error if it returned Err, and returns the
computation result unchanged. -/
theorem observable_func_spec :
    ∀ {T E : Type} (debug_fmt : E → String) (source : Uuid)
      (event : ObservableEvent) (func : Unit → Except E T),
      (observable_func debug_fmt source event func).2 = func () ∧
      (observable_func debug_fmt source event func).1.head? =
        some ⟨source, event, .starting⟩ ∧
      (∀ t, func () = .ok t →
        (observable_func debug_fmt source event func).1 =
          [⟨source, event, .starting⟩, ⟨source, event, .succeeded⟩]) ∧
      (∀ e, func () = .error e →
        (observable_func debug_fmt source event func).1 =
          [⟨source, event, .starting⟩, ⟨source, event, .failed (debug_fmt e)⟩]) := by
  intro T E debug_fmt source event func
  refine ⟨rfl, rfl, ?_, ?_⟩
  · intro t h
    simp [observable_func, h]
  · intro e h
    simp [observable_func, h]

/-- Witness for C3 at a concrete failing computation. -/
theorem observable_func_spec_witness :
    (observable_func (fun e : String => e) 7 .datasetSync
      (fun _ => (.error "boom" : Except String Nat))).1 =
      [⟨7, .datasetSync, .starting⟩, ⟨7, .datasetSync, .failed "boom"⟩] :=
  (observable_func_spec (fun e => e) 7 .datasetSync
    (fun _ => (.error "boom" : Except String Nat))).2.2.2 "boom" rfl

/-- C7: the emitted URI is the base URL, the hyphenated healthcheck UUID,
and the stage suffix: /start for Starting, empty for Succeeded, /fail for
Failed; the default emitter base URL is https://hc-ping.com/ exactly. -/
theorem observation_emitter_uri_spec :
    ∀ (u : Uuid) (msg : String),
      ObservationEmitter.default.url = "https://hc-ping.com/" ∧
      ObservationEmitter.emit_uri .default u .starting =
        ("https://hc-ping.com/" ++ uuid_to_hyphenated u) ++ "/start" ∧
      ObservationEmitter.emit_uri .default u .succeeded =
        ("https://hc-ping.com/" ++ uuid_to_hyphenated u) ++ "" ∧
      ObservationEmitter.emit_uri .default u (.failed msg) =
        ("https://hc-ping.com/" ++ uuid_to_hyphenated u) ++ "/fail" := by
  intro u msg
  exact ⟨rfl, rfl, rfl, rfl⟩

/-- C8: the SnapshotTick handler runs snapshot creation inside the
observation envelope for DatasetSnapshot, appends the new snapshot to the
actor list exactly when creation succeeded, and performs the same
schedule-next action whatever the outcome was. -/
theorem snapshot_tick_spec :
    ∀ (st : DatasetActorState) (now : Nat) (s : BtrfsDatasetSnapshot) (e : String),
      (snapshot_message_handler st now (.ok s)).1 =
        { st with snapshots := st.snapshots ++ [s] } ∧
      (snapshot_message_handler st now (.error e)).1 = st ∧
      (snapshot_message_handler st now (.ok s)).2.1 =
        [⟨st.dataset_id, .datasetSnapshot, .starting⟩,
         ⟨st.dataset_id, .datasetSnapshot, .succeeded⟩] ∧
      (snapshot_message_handler st now (.error e)).2.1 =
        [⟨st.dataset_id, .datasetSnapshot, .starting⟩,
         ⟨st.dataset_id, .datasetSnapshot, .failed e⟩] ∧
      (∀ r, (snapshot_message_handler st now r).2.2 =
        schedule_next_message st.snapshot_schedule now) := by
  intro st now s e
  exact ⟨rfl, rfl, rfl, rfl, fun r => rfl⟩

/-- C9: after the sender/holder finished handler runs for an actor id, no
hold record with that actor id remains, every hold record with a different
actor id survives, and the snapshot list, the schedules and the dataset id
are unchanged. -/
theorem sender_finished_removes_holds :
    ∀ (st : DatasetActorState) (fid : Nat),
      (∀ r ∈ (local_sender_finished_handler st fid).active_sends_holds,
        r.actor_id ≠ fid) ∧
      (∀ r ∈ st.active_sends_holds, r.actor_id ≠ fid →
        r ∈ (local_sender_finished_handler st fid).active_sends_holds) ∧
      (local_sender_finished_handler st fid).snapshots = st.snapshots ∧
      (local_sender_finished_handler st fid).snapshot_schedule = st.snapshot_schedule ∧
      (local_sender_finished_handler st fid).prune_schedule = st.prune_schedule ∧
      (local_sender_finished_handler st fid).dataset_id = st.dataset_id := by
  intro st fid
  refine ⟨?_, ?_, rfl, rfl, rfl, rfl⟩
  · intro r hr
    have := (List.mem_filter.mp hr).2
    simpa using this
  · intro r hr hne
    exact List.mem_filter.mpr ⟨hr, by simpa using hne⟩

/-- Witness for C9 at a concrete state holding records for actors 1 and 2,
with actor 1 finishing. -/
theorem sender_finished_removes_holds_witness :
    demo_hold_b ∈ (local_sender_finished_handler demo_hold_state 1).active_sends_holds ∧
    (∀ r ∈ (local_sender_finished_handler demo_hold_state 1).active_sends_holds,
      r.actor_id ≠ 1) :=
  ⟨(sender_finished_removes_holds demo_hold_state 1).2.1 demo_hold_b (by decide)
      (by decide),
    (sender_finished_removes_holds demo_hold_state 1).1⟩

/-- C2: the GetSnapshotSender handler fails with the snapshot-not-found or
parent-not-found error, leaving the state (snapshot list and active holds)
unchanged and sending no ready reply, when either UUID fails to resolve;
when both resolve and the sender actor starts, exactly one hold record with
the sender actor id, send UUID and optional parent UUID is appended, and
the SenderReady reply carrying the started sender is sent on the ready
sink. -/
theorem get_snapshot_sender_spec :
    ∀ (st : DatasetActorState) (su : Uuid) (pu : Option Uuid)
      (sr : Except String Nat),
      (st.snapshots.find? (fun s => s.uuid == su) = none →
        get_snapshot_sender_handler st su pu sr =
          ⟨.error "Snapshot not found.", st, none⟩) ∧
      (∀ send pid, st.snapshots.find? (fun s => s.uuid == su) = some send →
        pu = some pid → st.snapshots.find? (fun s => s.uuid == pid) = none →
        get_snapshot_sender_handler st su pu sr =
          ⟨.error "Parent not found", st, none⟩) ∧
      (∀ send addr, st.snapshots.find? (fun s => s.uuid == su) = some send →
        pu = none → sr = .ok addr →
        get_snapshot_sender_handler st su pu sr =
          ⟨.ok (), { st with active_sends_holds :=
              st.active_sends_holds ++ [⟨addr, send.uuid, none⟩] },
            some (.ok addr)⟩) ∧
      (∀ send pid p addr, st.snapshots.find? (fun s => s.uuid == su) = some send →
        pu = some pid → st.snapshots.find? (fun s => s.uuid == pid) = some p →
        sr = .ok addr →
        get_snapshot_sender_handler st su pu sr =
          ⟨.ok (), { st with active_sends_holds :=
              st.active_sends_holds ++ [⟨addr, send.uuid, some p.uuid⟩] },
            some (.ok addr)⟩) := by
  intro st su pu sr
  refine ⟨?_, ?_, ?_, ?_⟩
  · intro h
    simp [get_snapshot_sender_handler, h]
  · intro send pid hs hp hnone
    subst hp
    simp [get_snapshot_sender_handler, hs, hnone]
  · intro send addr hs hp hr
    subst hp hr
    simp [get_snapshot_sender_handler, hs]
  · intro send pid p addr hs hp hfind hr
    subst hp hr
    simp [get_snapshot_sender_handler, hs, hfind]

/-- Witness for C2 at a concrete state where both the send UUID and the
parent UUID resolve and the sender actor starts with actor id 99. -/
theorem get_snapshot_sender_spec_witness :
    get_snapshot_sender_handler demo_sender_state 1 (some 2) (.ok 99) =
      ⟨.ok (), { demo_sender_state with active_sends_holds :=
          demo_sender_state.active_sends_holds ++ [⟨99, 1, some 2⟩] },
        some (.ok 99)⟩ :=
  (get_snapshot_sender_spec demo_sender_state 1 (some 2) (.ok 99)).2.2.2
    demo_snapshot_1 2 demo_snapshot_2 99 (by decide) rfl (by decide) rfl

/-- C6 counterexample: the string containing a tab (whitespace but not a
space) is not handed to the cron parse; the code branches on containing a
space character only, so the tab-separated input takes the human-duration
path and surfaces the duration-parse error instead of the cron result. -/
theorem schedule_arg_whitespace_counterexample :
    ("1h\t30m".data.any Char.isWhitespace = true) ∧
    schedule_arg_from_str demo_cron_parse demo_humantime_parse
      demo_duration_try_into "1h\t30m" ≠ demo_cron_parse "1h\t30m" := by
  constructor
  · decide
  · decide

/-- C6 amended: a string containing a space character is parsed as a cron
expression; any other string is parsed as a human duration, whose parse
error is surfaced directly, and when the parsed duration cannot be
converted into a schedule the error is the advisory message recommending a
cron expression. -/
theorem schedule_arg_branch_amended :
    ∀ {α : Type} (cron_parse : String → Except String α)
      (humantime_parse : String → Except String Nat)
      (duration_try_into : Nat → Option α) (s : String),
      (s.data.any (fun c => c == ' ') = true →
        schedule_arg_from_str cron_parse humantime_parse duration_try_into s =
          cron_parse s) ∧
      (s.data.any (fun c => c == ' ') = false → ∀ e,
        humantime_parse s = .error e →
        schedule_arg_from_str cron_parse humantime_parse duration_try_into s =
          .error e) ∧
      (s.data.any (fun c => c == ' ') = false → ∀ d,
        humantime_parse s = .ok d →
        (∀ m, duration_try_into d = some m →
          schedule_arg_from_str cron_parse humantime_parse duration_try_into s =
            .ok m) ∧
        (duration_try_into d = none →
          schedule_arg_from_str cron_parse humantime_parse duration_try_into s =
            .error schedule_advisory_message)) := by
  intro α cron_parse humantime_parse duration_try_into s
  refine ⟨?_, ?_, ?_⟩
  · intro h
    simp [schedule_arg_from_str, h]
  · intro h e he
    simp [schedule_arg_from_str, h, he]
  · intro h d hd
    constructor
    · intro m hm
      simp [schedule_arg_from_str, h, hd, hm]
    · intro hm
      simp [schedule_arg_from_str, h, hd, hm]

/-- Witness for the amended C6 at the concrete duration 15m whose
conversion into a schedule fails, surfacing the advisory message. -/
theorem schedule_arg_branch_amended_witness :
    schedule_arg_from_str demo_cron_parse demo_humantime_parse15
      demo_duration_try_into "15m" = .error schedule_advisory_message :=
  ((schedule_arg_branch_amended demo_cron_parse demo_humantime_parse15
      demo_duration_try_into "15m").2.2 (by decide) 900 (by decide)).2 rfl

/-- C10: attach_pool errors and leaves the pool set unchanged exactly when
the new pool shares a name, filesystem UUID or mountpoint with an attached
pool; otherwise it appends exactly the new pool, and pairwise distinctness
of names, UUIDs and mountpoints is preserved by every successful attach. -/
theorem attach_pool_spec :
    ∀ (e : Entities) (pool : BtrfsPoolEntity),
      ((∃ p ∈ e.btrfs_pools, p.name = pool.name ∨ p.uuid = pool.uuid ∨
          p.mountpoint_path = pool.mountpoint_path) ↔
        (∃ msg, (e.attach_pool pool).1 = .error msg)) ∧
      ((∃ msg, (e.attach_pool pool).1 = .error msg) →
        (e.attach_pool pool).2 = e) ∧
      ((¬ ∃ p ∈ e.btrfs_pools, p.name = pool.name ∨ p.uuid = pool.uuid ∨
          p.mountpoint_path = pool.mountpoint_path) →
        (e.attach_pool pool).1 = .ok () ∧
        (e.attach_pool pool).2.btrfs_pools = e.btrfs_pools ++ [pool]) ∧
      (pools_distinct e.btrfs_pools → (e.attach_pool pool).1 = .ok () →
        pools_distinct (e.attach_pool pool).2.btrfs_pools) := by
  intro e pool
  rcases h1 : e.pool pool.name with _ | p1
  · rcases h2 : e.pool_by_uuid pool.uuid with _ | p2
    · rcases h3 : e.pool_by_mountpoint pool.mountpoint_path with _ | p3
      · have hnone1 : ∀ x ∈ e.btrfs_pools, x.name ≠ pool.name := by
          intro x hx
          have := List.find?_eq_none.mp h1 x hx
          simpa using this
        have hnone2 : ∀ x ∈ e.btrfs_pools, x.uuid ≠ pool.uuid := by
          intro x hx
          have := List.find?_eq_none.mp h2 x hx
          simpa using this
        have hnone3 : ∀ x ∈ e.btrfs_pools, x.mountpoint_path ≠ pool.mountpoint_path := by
          intro x hx
          have := List.find?_eq_none.mp h3 x hx
          simpa using this
        have hnc : ¬ ∃ p ∈ e.btrfs_pools, p.name = pool.name ∨ p.uuid = pool.uuid ∨
            p.mountpoint_path = pool.mountpoint_path := by
          rintro ⟨p, hp, hc | hc | hc⟩
          exacts [hnone1 p hp hc, hnone2 p hp hc, hnone3 p hp hc]
        have hres : e.attach_pool pool =
            ⟨.ok (), { e with btrfs_pools := e.btrfs_pools ++ [pool] }⟩ := by
          simp [Entities.attach_pool, h1, h2, h3]
        refine ⟨⟨fun hc => absurd hc hnc, ?_⟩, ?_, fun _ => ⟨by rw [hres], by rw [hres]⟩, ?_⟩
        · rintro ⟨msg, hmsg⟩
          rw [hres] at hmsg
          exact absurd hmsg (by simp)
        · rintro ⟨msg, hmsg⟩
          rw [hres] at hmsg
          exact absurd hmsg (by simp)
        · intro hdist _
          rw [hres]
          show pools_distinct (e.btrfs_pools ++ [pool])
          unfold pools_distinct at hdist ⊢
          refine List.pairwise_append.mpr ⟨hdist, List.pairwise_singleton _ _, ?_⟩
          intro a ha b hb
          rw [List.mem_singleton] at hb
          subst hb
          exact ⟨hnone1 a ha, hnone2 a ha, hnone3 a ha⟩
      · have hmem := List.mem_of_find?_eq_some h3
        have heq : p3.mountpoint_path = pool.mountpoint_path := by
          simpa using List.find?_some h3
        have hres : e.attach_pool pool =
            ⟨.error ("mountpoint already used by pool " ++ p3.name ++ "."), e⟩ := by
          simp [Entities.attach_pool, h1, h2, h3]
        refine ⟨⟨fun _ => ⟨_, by rw [hres]⟩,
            fun _ => ⟨p3, hmem, Or.inr (Or.inr heq)⟩⟩,
          fun _ => by rw [hres],
          fun hnc => absurd ⟨p3, hmem, Or.inr (Or.inr heq)⟩ hnc,
          fun _ hok => ?_⟩
        rw [hres] at hok
        exact absurd hok (by simp)
    · have hmem := List.mem_of_find?_eq_some h2
      have heq : p2.uuid = pool.uuid := by
        simpa using List.find?_some h2
      have hres : e.attach_pool pool =
          ⟨.error ("uuid already used by pool " ++ p2.name ++ "."), e⟩ := by
        simp [Entities.attach_pool, h1, h2]
      refine ⟨⟨fun _ => ⟨_, by rw [hres]⟩,
          fun _ => ⟨p2, hmem, Or.inr (Or.inl heq)⟩⟩,
        fun _ => by rw [hres],
        fun hnc => absurd ⟨p2, hmem, Or.inr (Or.inl heq)⟩ hnc,
        fun _ hok => ?_⟩
      rw [hres] at hok
      exact absurd hok (by simp)
  · have hmem := List.mem_of_find?_eq_some h1
    have heq : p1.name = pool.name := by
      simpa using List.find?_some h1
    have hres : e.attach_pool pool =
        ⟨.error ("Pool name \x27" ++ p1.name ++ "\x27 already exists."), e⟩ := by
      simp [Entities.attach_pool, h1]
    refine ⟨⟨fun _ => ⟨_, by rw [hres]⟩, fun _ => ⟨p1, hmem, Or.inl heq⟩⟩,
      fun _ => by rw [hres],
      fun hnc => absurd ⟨p1, hmem, Or.inl heq⟩ hnc,
      fun _ hok => ?_⟩
    rw [hres] at hok
    exact absurd hok (by simp)

/-- Witness for C10: attaching a pool distinct in all three keys to an
entity set with one pool succeeds, appends it, and preserves pairwise
distinctness. -/
theorem attach_pool_spec_witness :
    (Entities.attach_pool ⟨[demo_pool_1]⟩ demo_pool_2).1 = .ok () ∧
    (Entities.attach_pool ⟨[demo_pool_1]⟩ demo_pool_2).2.btrfs_pools =
      [demo_pool_1] ++ [demo_pool_2] ∧
    pools_distinct (Entities.attach_pool ⟨[demo_pool_1]⟩ demo_pool_2).2.btrfs_pools :=
  ⟨((attach_pool_spec ⟨[demo_pool_1]⟩ demo_pool_2).2.2.1 (by decide)).1,
   ((attach_pool_spec ⟨[demo_pool_1]⟩ demo_pool_2).2.2.1 (by decide)).2,
   (attach_pool_spec ⟨[demo_pool_1]⟩ demo_pool_2).2.2.2 (by decide)
     ((attach_pool_spec ⟨[demo_pool_1]⟩ demo_pool_2).2.2.1 (by decide)).1⟩

/-- C1: the held-UUID list the PruneTick handler passes to the retention
engine contains the send UUID and any present parent UUID of every active
hold record, and no snapshot in the delete set computed by the handler has
its UUID equal to the send UUID or the parent UUID of any active hold. -/
theorem prune_tick_hold_safety :
    ∀ (st : DatasetActorState) (rule : RetentionRuleset) (now : Nat)
      (hr : HoldRecord) (s : BtrfsDatasetSnapshot),
      hr ∈ st.active_sends_holds →
        hr.send_uuid ∈ active_hold_uuids st.active_sends_holds ∧
        (∀ p, hr.parent_uuid = some p →
          p ∈ active_hold_uuids st.active_sends_holds) ∧
        (s ∈ prune_message_deletes st rule now →
          s.uuid ≠ hr.send_uuid ∧ hr.parent_uuid ≠ some s.uuid) := by
  intro st rule now hr s hmem
  have hsend : hr.send_uuid ∈ active_hold_uuids st.active_sends_holds :=
    List.mem_flatMap.mpr ⟨hr, hmem, List.mem_cons_self _ _⟩
  have hpar : ∀ p, hr.parent_uuid = some p →
      p ∈ active_hold_uuids st.active_sends_holds := by
    intro p hp
    exact List.mem_flatMap.mpr ⟨hr, hmem, by simp [hp]⟩
  refine ⟨hsend, hpar, ?_⟩
  intro hdel
  simp only [prune_message_deletes, prune_spec] at hdel
  have hfilter := (List.mem_filter.mp hdel).2
  have hnotheld : s.uuid ∉ active_hold_uuids st.active_sends_holds := by
    simp only [Bool.and_eq_true] at hfilter
    simpa using hfilter.2
  constructor
  · intro hEq
    exact hnotheld (hEq ▸ hsend)
  · intro hEq
    exact hnotheld (hpar s.uuid hEq)

/-- Witness for C1: with three snapshots, a hold pinning uuid 3 with parent
uuid 2, and a rule retaining only the newest snapshot, the delete set is
exactly the unheld oldest snapshot, and it clashes with neither UUID of the
hold. -/
theorem prune_tick_hold_safety_witness :
    demo_snapshot_1 ∈ prune_message_deletes demo_prune_state demo_rule 30 ∧
    demo_snapshot_1.uuid ≠ demo_hold_record.send_uuid ∧
    demo_hold_record.parent_uuid ≠ some demo_snapshot_1.uuid :=
  ⟨by decide,
   (prune_tick_hold_safety demo_prune_state demo_rule 30 demo_hold_record
     demo_snapshot_1 (by decide)).2.2 (by decide)⟩

/-- C4 counterexample: two subvolume names that chrono parses to the same
datetime enter the enumeration with the larger UUID first; the sort key is
the datetime alone, so the result is not ordered by (datetime, UUID). -/
theorem dataset_snapshots_tiebreak_counterexample :
    ¬ List.Sorted (fun a b : BtrfsDatasetSnapshot =>
        a.datetime < b.datetime ∨ (a.datetime = b.datetime ∧ a.uuid ≤ b.uuid))
      (dataset_snapshots [demo_subvol_a, demo_subvol_b] demo_datetime_parse) := by
  decide

/-- C4 amended: the snapshot enumeration returns a list sorted ascending by
datetime; the relative order of snapshots with equal datetimes is not
determined by their UUIDs (the sort uses the datetime key only). -/
theorem dataset_snapshots_sorted_amended :
    ∀ (subvols : List Subvolume) (parse : String → Option Nat),
      List.Sorted (fun a b : BtrfsDatasetSnapshot => a.datetime ≤ b.datetime)
        (dataset_snapshots subvols parse) := by
  intro subvols parse
  simp only [dataset_snapshots, sort_by_datetime]
  exact List.sorted_insertionSort _ _

/-- C5 counterexample: a subvolume whose name carries the bcrcv suffix but
whose received UUID is null passes the enumeration filter, so the
enumeration yields a container snapshot on which received_uuid reaches its
panic branch. -/
theorem container_snapshots_received_counterexample :
    ¬ (∀ s ∈ container_snapshots [demo_recv_subvol] demo_datetime_parse,
        (BtrfsContainerSnapshot.received_uuid s).isSome = true) := by
  decide

/-- C5 amended: the enumeration filters only on the bcrcv suffix and a
parseable datetime stem; when additionally every bcrcv-suffixed subvolume
in the enumerated directory has a non-null received UUID (the environment
invariant maintained by btrfs receive), no enumerated snapshot reaches the
received_uuid panic branch. -/
theorem container_snapshots_received_amended :
    ∀ (subvols : List Subvolume) (parse : String → Option Nat),
      (∀ v ∈ subvols, path_extension v.file_name = some "bcrcv" →
        v.received_uuid.isSome = true) →
      ∀ s ∈ container_snapshots subvols parse,
        (BtrfsContainerSnapshot.received_uuid s).isSome = true := by
  intro subvols parse hinv s hs
  simp only [container_snapshots, sort_container_by_datetime] at hs
  have hs2 := ((List.perm_insertionSort _ _).mem_iff).mp hs
  rcases List.mem_filterMap.mp hs2 with ⟨v, hv, hnew⟩
  have hvf := List.mem_filter.mp hv
  have hext : path_extension v.file_name = some "bcrcv" := by
    simpa using hvf.2
  have hrecv := hinv v hvf.1 hext
  simp only [new_child_snapshot] at hnew
  rcases Option.map_eq_some'.mp hnew with ⟨d, _, hsd⟩
  subst hsd
  simpa [BtrfsContainerSnapshot.received_uuid] using hrecv

/-- Witness for the amended C5 at a received subvolume carrying both the
bcrcv suffix and a non-null received UUID. -/
theorem container_snapshots_received_amended_witness :
    (BtrfsContainerSnapshot.received_uuid ⟨demo_recv_good_subvol, 100⟩).isSome = true :=
  container_snapshots_received_amended [demo_recv_good_subvol] demo_datetime_parse
    (by decide) ⟨demo_recv_good_subvol, 100⟩ (by decide)
